import Mathlib

/-!
Shallow embedding of the four Streamlit evaluator variants
(`ecosystem_evaluator.py`, `platform_evaluator.py`,
`evaluator_digital_disruption.py`, `evaluator_transformation_plan.py`).

JSON values produced by `json.loads` are modelled by the inductive `Json`
(numeric literals are modelled as integers; floating point is irrelevant to
the rendering logic, which only ever compares stringified values).
Python `dict`s coming from `json.loads` keep the LAST occurrence of a
duplicated key, hence `dictGet?` returns the last matching binding.
Streamlit output calls (`st.markdown`, `st.success`, ...) are modelled as an
emitted list of `Widget`s; a Python exception inside the rendering
`try` block is modelled by a `Bool` "raised" flag carried next to the
widgets emitted before the exception.
-/

inductive Json where
  | null : Json
  | bool (b : Bool) : Json
  | num (n : Int) : Json
  | str (s : String) : Json
  | arr (elems : List Json) : Json
  | obj (fields : List (String × Json)) : Json
deriving Repr

mutual

/-- Python `repr` of a JSON-shaped value (enough of it for this program:
`None`/`True`/`False`, decimal integers, single-quoted strings, and
bracketed containers). -/
def pyRepr : Json → String
  | .null => "None"
  | .bool true => "True"
  | .bool false => "False"
  | .num n => toString n
  | .str s => "\x27" ++ s ++ "\x27"
  | .arr es => "[" ++ pyReprList es ++ "]"
  | .obj fs => "\x7b" ++ pyReprFields fs ++ "\x7d"

/-- Comma-separated `repr`s of the elements of a Python list. -/
def pyReprList : List Json → String
  | [] => ""
  | [j] => pyRepr j
  | j :: rest => pyRepr j ++ ", " ++ pyReprList rest

/-- Comma-separated `'key': repr(value)` entries of a Python dict. -/
def pyReprFields : List (String × Json) → String
  | [] => ""
  | [(k, v)] => "\x27" ++ k ++ "\x27: " ++ pyRepr v
  | (k, v) :: rest => "\x27" ++ k ++ "\x27: " ++ pyRepr v ++ ", " ++ pyReprFields rest

end

/-- Python `str()` applied to a JSON-shaped value: identity on strings,
`repr` otherwise (as for these types `str` and `repr` agree off strings). -/
def pyStr : Json → String
  | .str s => s
  | j => pyRepr j

/-- Python truthiness of a JSON-shaped value. -/
def pyTruthy : Json → Bool
  | .null => false
  | .bool b => b
  | .num n => n != 0
  | .str s => !s.isEmpty
  | .arr es => !es.isEmpty
  | .obj fs => !fs.isEmpty

/-- Python `str.lower()` (ASCII case folding suffices for this program). -/
def pyLower (s : String) : String := String.mk (s.data.map Char.toLower)

/-- Python `str.strip()` (leading/trailing whitespace removal). -/
def pyStrip (s : String) : String :=
  String.mk (((s.data.dropWhile Char.isWhitespace).reverse.dropWhile Char.isWhitespace).reverse)

/-- Python `dict.get(k)` on a parsed-JSON object: `none` models `None`
(key absent).  A duplicated key keeps its last binding, as `json.loads`
does. -/
def dictGet? (fields : List (String × Json)) (k : String) : Option Json :=
  fields.foldl (fun acc p => if p.1 == k then some p.2 else acc) none

/-- Python `dict.get(k, d)` with an explicit default. -/
def dictGetD (fields : List (String × Json)) (k : String) (d : Json) : Json :=
  (dictGet? fields k).getD d

mutual

/-- `json.dumps` with its default separators. -/
def jsonDumps : Json → String
  | .null => "null"
  | .bool true => "true"
  | .bool false => "false"
  | .num n => toString n
  | .str s => "\"" ++ s ++ "\""
  | .arr es => "[" ++ jsonDumpsList es ++ "]"
  | .obj fs => "\x7b" ++ jsonDumpsFields fs ++ "\x7d"

/-- Comma-separated serialized elements of a JSON array. -/
def jsonDumpsList : List Json → String
  | [] => ""
  | [j] => jsonDumps j
  | j :: rest => jsonDumps j ++ ", " ++ jsonDumpsList rest

/-- Comma-separated `"key": value` entries of a JSON object. -/
def jsonDumpsFields : List (String × Json) → String
  | [] => ""
  | [(k, v)] => "\"" ++ k ++ "\": " ++ jsonDumps v
  | (k, v) :: rest => "\"" ++ k ++ "\": " ++ jsonDumps v ++ ", " ++ jsonDumpsFields rest

end

/-- One Streamlit output call, as emitted by the rendering code. -/
inductive Widget where
  | subheader (t : String) : Widget
  | sectionHeader (t : String) : Widget
  | badge (ok : Bool) (key : String) (explanation : String) : Widget
  | success (t : String) : Widget
  | error (t : String) : Widget
  | info (t : String) : Widget
  | warning (t : String) : Widget
  | markdown (t : String) : Widget
  | write (v : Json) : Widget
deriving Repr

/-!
Response validation & rendering, common to all four variants (they differ
only in which top-level part keys and section titles they look for).
-/

/-- The `ok`/badge/explanation markdown block emitted by `render_items` for
one criterion whose value is a dict with fields `fs`:
`ok = str(val.get("value", "no")).lower() == "yes"`. -/
def criterionWidget (key : String) (fs : List (String × Json)) : Widget :=
  Widget.badge (pyLower (pyStr (dictGetD fs "value" (Json.str "no"))) == "yes")
    key (pyStr (dictGetD fs "explanation" (Json.str "")))

/-- `render_items(items)`: a badge per criterion, in order.  The second
component is `true` when a criterion value is not a dict, in which case
`val.get` raises `AttributeError` and no further widget is emitted
(the exception is caught by the surrounding `try`). -/
def render_items : List (String × Json) → List Widget × Bool
  | [] => ([], false)
  | (key, val) :: rest =>
    match val with
    | Json.obj fs =>
      let r := render_items rest
      (criterionWidget key fs :: r.1, r.2)
    | _ => ([], true)

/-- The per-part loop: for each `(key, title)` pair, when
`isinstance(data.get(key), dict)` holds emit the section header and the
part's badges, otherwise skip the part.  The `Bool` is the raised flag
from `render_items`; when it is set the remaining parts are not reached. -/
def renderParts (fields : List (String × Json)) : List (String × String) → List Widget × Bool
  | [] => ([], false)
  | (key, title) :: rest =>
    match dictGet? fields key with
    | some (Json.obj items) =>
      let r := render_items items
      if r.2 then (Widget.sectionHeader title :: r.1, true)
      else
        let r2 := renderParts fields rest
        (Widget.sectionHeader title :: (r.1 ++ r2.1), r2.2)
    | _ => renderParts fields rest

/-- The final grade banner:
`final_grade = str(data.get("final_grade", "")).lower()` then
success / error / info on `"pass"` / `"fail"` / anything else. -/
def renderGrade (fields : List (String × Json)) : Widget :=
  let final_grade := pyLower (pyStr (dictGetD fields "final_grade" (Json.str "")))
  if final_grade == "pass" then Widget.success "Final Grade: PASS"
  else if final_grade == "fail" then Widget.error "Final Grade: FAIL"
  else Widget.info ("Final Grade: " ++ pyStr (dictGetD fields "final_grade" (Json.str "")))

/-- The overall comments section: emitted only when
`data.get("overall_comments", "")` is truthy. -/
def renderComments (fields : List (String × Json)) : List Widget :=
  let comments := dictGetD fields "overall_comments" (Json.str "")
  if pyTruthy comments then [Widget.markdown "### Overall Comments", Widget.write comments]
  else []

/-- The warning emitted by the `except` fallback of the rendering block. -/
def fallbackWarning : Widget :=
  Widget.warning "Could not parse the evaluation into sections. Showing compact text."

/-- The whole rendering block after a successful `call_agent`: `parsed` is
the outcome of `json.loads(result)` (`none` models a raised
`json.JSONDecodeError`), `raw` is the result string itself.  A non-dict
parse outcome makes `data.get` raise, and any exception inside the `try`
lands in the `except` branch, which appends the fallback warning and the
raw text to whatever was already emitted. -/
def renderResult (parts : List (String × String)) (parsed : Option Json) (raw : String) :
    List Widget :=
  Widget.subheader "Result" ::
    match parsed with
    | some (Json.obj fields) =>
      let r := renderParts fields parts
      if r.2 then r.1 ++ [fallbackWarning, Widget.write (Json.str raw)]
      else r.1 ++ renderGrade fields :: renderComments fields
    | _ => [fallbackWarning, Widget.write (Json.str raw)]

/-- Part keys and section titles of `ecosystem_evaluator.py`. -/
def ecosystemParts : List (String × String) :=
  [("part1_complementors_intermediaries", "Part 1 — Core Complementors and Intermediaries"),
   ("part2_mve", "Part 2 — Minimal Viable Ecosystem (MVE)"),
   ("part3_risks", "Part 3 — Core Ecosystem Risks")]

/-- Part keys and section titles of `platform_evaluator.py`. -/
def platformParts : List (String × String) :=
  [("part1_interactions_actors", "Part 1 — Core Interactions and Actors"),
   ("part2_chicken_egg", "Part 2 — Solving the Chicken or Egg Problem"),
   ("part3_monetization", "Part 3 — Monetization Strategy")]

/-- Part keys and section titles of `evaluator_digital_disruption.py`. -/
def digitalParts : List (String × String) :=
  [("part1", "Part 1 — Business Model"),
   ("part2", "Part 2 — Disruptors"),
   ("part3", "Part 3 — Strategies")]

/-- Part keys and section titles of `evaluator_transformation_plan.py`. -/
def transformationParts : List (String × String) :=
  [("part1_awareness", "Part 1 — Awareness"),
   ("part2_vision", "Part 2 — Digital Vision"),
   ("part3_use_cases", "Part 3 — Use Cases"),
   ("part4_employee_engagement", "Part 4 — Employee Engagement")]

/-!
The `if run:` trigger handlers and per-variant credential acquisition.
`Option String` models a value that may be absent (an unset environment
variable, a missing Streamlit secret); the empty string models a rendered
but untouched sidebar text input.
-/

/-- Outcome of one trigger press (or of the script run attempting to reach
the trigger): an uncaught exception while the script sets up, a blocking
`st.warning`, or an invocation of `call_agent` with the given api key. -/
inductive Outcome where
  | scriptError (msg : String) : Outcome
  | warned (msg : String) : Outcome
  | called (api_key : String) : Outcome
deriving Repr, DecidableEq

/-- Python truthiness of an `os.environ.get(k)`-style optional string:
falsy when absent or empty. -/
def optFalsy : Option String → Bool
  | none => true
  | some s => s.isEmpty

/-- `ecosystem_evaluator.py` trigger handler: sidebar key text input
(possibly left empty), ambient `OPENAI_API_KEY` environment variable. -/
def ecosystemRun (api_key : String) (env : Option String) (user_text : String) : Outcome :=
  if (pyStrip user_text).isEmpty then
    Outcome.warned "Please paste your submission text before evaluating."
  else if api_key.isEmpty && optFalsy env then
    Outcome.warned "Provide an OpenAI API key in the sidebar or set OPENAI_API_KEY."
  else Outcome.called api_key

/-- `platform_evaluator.py` trigger handler (identical credential logic to
the ecosystem variant). -/
def platformRun (api_key : String) (env : Option String) (user_text : String) : Outcome :=
  if (pyStrip user_text).isEmpty then
    Outcome.warned "Please paste your submission text before evaluating."
  else if api_key.isEmpty && optFalsy env then
    Outcome.warned "Provide an OpenAI API key in the sidebar or set OPENAI_API_KEY."
  else Outcome.called api_key

/-- `evaluator_digital_disruption.py`: the script reads
`st.secrets["OPENAI_API_KEY"]` at the top (raising an uncaught `KeyError`
when the secret is absent, before the text area or the trigger button are
even rendered), copies it into `os.environ["OPENAI_API_KEY"]`, and only
then defines the trigger handler. -/
def digitalDisruptionRun (secrets : Option String) (user_text : String) : Outcome :=
  match secrets with
  | none => Outcome.scriptError "KeyError: st.secrets has no key OPENAI_API_KEY"
  | some api_key =>
    let env : Option String := some api_key
    if (pyStrip user_text).isEmpty then
      Outcome.warned "Please paste your submission text before evaluating."
    else if api_key.isEmpty && optFalsy env then
      Outcome.warned "Provide an OpenAI API key in the sidebar or set OPENAI_API_KEY."
    else Outcome.called api_key

/-- `evaluator_transformation_plan.py`:
`api_key = st.secrets.get("OPENAI_API_KEY", os.environ.get("OPENAI_API_KEY", ""))`,
then a sidebar input when that is empty, then the trigger handler guarded
by `elif not api_key`. -/
def transformationPlanRun (secrets : Option String) (env : Option String)
    (sidebar : String) (user_text : String) : Outcome :=
  let k0 := secrets.getD (env.getD "")
  let api_key := if k0.isEmpty then sidebar else k0
  if (pyStrip user_text).isEmpty then
    Outcome.warned "Please paste your submission text before evaluating."
  else if api_key.isEmpty then
    Outcome.warned
      "Provide an OpenAI API key in the sidebar, set OPENAI_API_KEY secret, or set OPENAI_API_KEY environment variable."
  else Outcome.called api_key

/-!
`call_agent` response-text extraction (identical in all four variants).
The remote response object is modelled by `Response`: `output` is the
optional `output` attribute (a list of items, each optionally carrying a
`content` list of typed segments), `output_text` and `content` are optional
attributes holding arbitrary Python values (a `Json` stands in for those),
and `dict` models `response.__dict__` for the final
`json.dumps(response.__dict__, default=str)` fallback.
-/

/-- One element of an output item's `content` list, with its `type` tag and
`text` payload. -/
structure Segment where
  type : String
  text : String

/-- One element of the response's `output` list; `content : none` models an
item without a `content` attribute (`hasattr(out, "content")` false). -/
structure OutputItem where
  content : Option (List Segment)

/-- The remote response object, restricted to the attributes `call_agent`
inspects. -/
structure Response where
  output : Option (List OutputItem)
  output_text : Option Json
  content : Option Json
  dict : Json

/-- The inner `for c in out.content` loop: the first segment with
`c.type == "output_text"` supplies `c.text`. -/
def firstOutputText : List Segment → Option String
  | [] => none
  | c :: cs => if c.type == "output_text" then some c.text else firstOutputText cs

/-- Python truthiness of the running `text_out` while it is still
`None`-or-string. -/
def truthyStr : Option String → Bool
  | none => false
  | some s => !s.isEmpty

/-- The outer `for out in getattr(response, "output", []) or []` loop with
its `if text_out: break`: `acc` is the running `text_out` (note an
empty-string segment text does NOT break the loop and may be overwritten
by a later item's segment). -/
def scanLoop (acc : Option String) : List OutputItem → Option String
  | [] => acc
  | item :: rest =>
    let acc2 :=
      match item.content with
      | some segs =>
        match firstOutputText segs with
        | some t => some t
        | none => acc
      | none => acc
    if truthyStr acc2 then acc2 else scanLoop acc2 rest

/-- Python truthiness of the `text_out` variable once it may hold an
arbitrary attribute value. -/
def truthyVal : Option Json → Bool
  | none => false
  | some j => pyTruthy j

/-- Python `a or b` on optional attribute values. -/
def pyOr (a b : Option Json) : Option Json :=
  if truthyVal a then a else b

/-- The `getattr(response, "output", []) or []` expression. -/
def outputList (r : Response) : List OutputItem :=
  match r.output with
  | some l => l
  | none => []

/-- The value of `text_out` just before `call_agent`'s return statement:
the scan result, then (inside the `try`) `response.output_text` when
`text_out` is falsy and the attribute exists, then (after the `try`)
`getattr(response, "output_text", None) or getattr(response, "content", None)`
when `text_out` is still falsy. -/
def extractTextOut (r : Response) : Option Json :=
  let t1 : Option Json := (scanLoop none (outputList r)).map Json.str
  let t2 : Option Json :=
    if !truthyVal t1 then
      match r.output_text with
      | some v => some v
      | none => t1
    else t1
  if !truthyVal t2 then pyOr r.output_text r.content else t2

/-- `call_agent`'s returned string:
`text_out if isinstance(text_out, str) else json.dumps(response.__dict__, default=str)`. -/
def call_agent_extract (r : Response) : String :=
  match extractTextOut r with
  | some (Json.str s) => s
  | _ => jsonDumps r.dict

/-- Modelled from the spec (claim C7's wording), for comparison with
`call_agent_extract`: a chain that stops at the first stage that yields a
string — first `output_text` segment, then the `output_text` field when it
is a string, then the `content` field when it is a string, else the
serialized raw response. -/
def firstInItems : List OutputItem → Option String
  | [] => none
  | item :: rest =>
    match item.content with
    | some segs =>
      match firstOutputText segs with
      | some t => some t
      | none => firstInItems rest
    | none => firstInItems rest

/-- The spec-worded extraction chain of claim C7 (see `firstInItems`). -/
def extract_spec (r : Response) : String :=
  match firstInItems (outputList r) with
  | some s => s
  | none =>
    match r.output_text with
    | some (Json.str s) => s
    | _ =>
      match r.content with
      | some (Json.str s) => s
      | _ => jsonDumps r.dict

/-- The payload of the spec's example scenario:
`{"part1":{"Q1":{"value":"yes","explanation":"ok"}}, "final_grade":"fail","overall_comments":""}`. -/
def examplePayload : Json :=
  Json.obj
    [("part1", Json.obj [("Q1", Json.obj [("value", Json.str "yes"), ("explanation", Json.str "ok")])]),
     ("final_grade", Json.str "fail"),
     ("overall_comments", Json.str "")]

/-- A payload whose first part holds a malformed (non-dict) criterion while
its second part is a well-formed dict: rendering aborts inside part 1. -/
def c4Payload : Json :=
  Json.obj
    [("part1", Json.obj [("Q", Json.str "bare")]),
     ("part2", Json.obj [("Q2", Json.obj [("value", Json.str "yes"), ("explanation", Json.str "ok")])])]

/-- A response with no output segments, a truthy non-string `output_text`
attribute and a string `content` attribute. -/
def numericResponse : Response :=
  ⟨some [], some (Json.num 42), some (Json.str "hello"), Json.obj []⟩

/-- A response whose single output item carries one `output_text` segment. -/
def segmentResponse : Response :=
  ⟨some [⟨some [⟨"output_text", "payload"⟩]⟩], none, none, Json.obj []⟩

/-- A response with none of the inspected attributes. -/
def bareResponse : Response :=
  ⟨none, none, none, Json.obj []⟩

/-!
Helper lemmas about the shapes of emitted widgets.
-/

theorem render_items_badges (items : List (String × Json)) (w : Widget)
    (h : w ∈ (render_items items).1) : ∃ ok k e, w = Widget.badge ok k e := by
  induction items with
  | nil => simp [render_items] at h
  | cons p rest ih =>
    obtain ⟨key, val⟩ := p
    cases val <;> simp [render_items] at h
    case obj fs =>
      rcases h with rfl | h
      · exact ⟨_, _, _, rfl⟩
      · exact ih h

theorem renderParts_shape (parts : List (String × String)) (fields : List (String × Json))
    (w : Widget) (h : w ∈ (renderParts fields parts).1) :
    (∃ t, w = Widget.sectionHeader t) ∨ ∃ ok k e, w = Widget.badge ok k e := by
  induction parts with
  | nil => simp [renderParts] at h
  | cons p rest ih =>
    obtain ⟨key, title⟩ := p
    rw [renderParts] at h
    rcases hk : dictGet? fields key with _ | j
    · rw [hk] at h; exact ih h
    · cases j <;> rw [hk] at h
      case obj items =>
        by_cases hr : (render_items items).2 <;> simp [hr] at h
        · rcases h with rfl | h
          · exact Or.inl ⟨_, rfl⟩
          · exact Or.inr (render_items_badges items w h)
        · rcases h with rfl | h | h
          · exact Or.inl ⟨_, rfl⟩
          · exact Or.inr (render_items_badges items w h)
          · exact ih h
      all_goals exact ih h

theorem renderComments_shape (fields : List (String × Json)) (w : Widget)
    (h : w ∈ renderComments fields) :
    w = Widget.markdown "### Overall Comments" ∨ ∃ v, w = Widget.write v := by
  unfold renderComments at h
  by_cases ht : pyTruthy (dictGetD fields "overall_comments" (Json.str "")) <;> simp [ht] at h
  rcases h with rfl | rfl
  · exact Or.inl rfl
  · exact Or.inr ⟨_, rfl⟩

theorem renderGrade_of_fail (fields : List (String × Json))
    (h : pyLower (pyStr (dictGetD fields "final_grade" (Json.str ""))) = "fail") :
    renderGrade fields = Widget.error "Final Grade: FAIL" := by
  simp [renderGrade, h]

theorem renderGrade_of_pass (fields : List (String × Json))
    (h : pyLower (pyStr (dictGetD fields "final_grade" (Json.str ""))) = "pass") :
    renderGrade fields = Widget.success "Final Grade: PASS" := by
  simp [renderGrade, h]

theorem renderGrade_of_other (fields : List (String × Json))
    (h1 : pyLower (pyStr (dictGetD fields "final_grade" (Json.str ""))) ≠ "pass")
    (h2 : pyLower (pyStr (dictGetD fields "final_grade" (Json.str ""))) ≠ "fail") :
    renderGrade fields =
      Widget.info ("Final Grade: " ++ pyStr (dictGetD fields "final_grade" (Json.str ""))) := by
  simp [renderGrade, h1, h2]

theorem renderResult_obj (parts : List (String × String)) (fields : List (String × Json))
    (raw : String) :
    renderResult parts (some (Json.obj fields)) raw =
      Widget.subheader "Result" ::
        (if (renderParts fields parts).2 then
          (renderParts fields parts).1 ++ [fallbackWarning, Widget.write (Json.str raw)]
        else (renderParts fields parts).1 ++ renderGrade fields :: renderComments fields) := rfl

theorem render_items_of_all_obj (items : List (String × Json))
    (h : ∀ p ∈ items, ∃ fs, p.2 = Json.obj fs) :
    (render_items items).2 = false ∧ (render_items items).1.length = items.length := by
  induction items with
  | nil => simp [render_items]
  | cons p rest ih =>
    obtain ⟨k, v⟩ := p
    obtain ⟨fs, hv⟩ := h (k, v) (by simp)
    simp only at hv
    subst hv
    have := ih (fun q hq => h q (by simp [hq]))
    simp [render_items, this.1, this.2]

/-- Claim C1: for every parsed JSON payload (any dict `fields`, any part
list, any raw text), the grade banner reflects the payload's
`final_grade` field verbatim: a payload whose `final_grade` lowercases to
`"fail"` is never rendered with the PASS banner (and, whenever the
structured rendering completes, the FAIL banner is rendered), and
symmetrically for `"pass"`; the per-criterion values play no role. -/
theorem c1_final_grade_rendered_verbatim (parts : List (String × String))
    (fields : List (String × Json)) (raw : String) :
    (pyLower (pyStr (dictGetD fields "final_grade" (Json.str ""))) = "fail" →
      Widget.success "Final Grade: PASS" ∉ renderResult parts (some (Json.obj fields)) raw ∧
      ((renderParts fields parts).2 = false →
        Widget.error "Final Grade: FAIL" ∈ renderResult parts (some (Json.obj fields)) raw)) ∧
    (pyLower (pyStr (dictGetD fields "final_grade" (Json.str ""))) = "pass" →
      Widget.error "Final Grade: FAIL" ∉ renderResult parts (some (Json.obj fields)) raw ∧
      ((renderParts fields parts).2 = false →
        Widget.success "Final Grade: PASS" ∈ renderResult parts (some (Json.obj fields)) raw)) := by
  constructor <;> intro hfg <;> constructor
  · intro hmem
    rw [renderResult_obj] at hmem
    by_cases hr : (renderParts fields parts).2 <;> simp [hr, fallbackWarning] at hmem
    · rcases renderParts_shape parts fields _ hmem with ⟨t, ht⟩ | ⟨ok, k, e, ht⟩ <;> simp at ht
    · rcases hmem with hmem | hmem | hmem
      · rcases renderParts_shape parts fields _ hmem with ⟨t, ht⟩ | ⟨ok, k, e, ht⟩ <;> simp at ht
      · rw [renderGrade_of_fail fields hfg] at hmem; simp at hmem
      · rcases renderComments_shape fields _ hmem with ht | ⟨v, ht⟩ <;> simp at ht
  · intro hr
    rw [renderResult_obj]
    simp [hr, renderGrade_of_fail fields hfg]
  · intro hmem
    rw [renderResult_obj] at hmem
    by_cases hr : (renderParts fields parts).2 <;> simp [hr, fallbackWarning] at hmem
    · rcases renderParts_shape parts fields _ hmem with ⟨t, ht⟩ | ⟨ok, k, e, ht⟩ <;> simp at ht
    · rcases hmem with hmem | hmem | hmem
      · rcases renderParts_shape parts fields _ hmem with ⟨t, ht⟩ | ⟨ok, k, e, ht⟩ <;> simp at ht
      · rw [renderGrade_of_pass fields hfg] at hmem; simp at hmem
      · rcases renderComments_shape fields _ hmem with ht | ⟨v, ht⟩ <;> simp at ht
  · intro hr
    rw [renderResult_obj]
    simp [hr, renderGrade_of_pass fields hfg]

/-- Claim C1 witness: on the concrete payload with `final_grade` `"fail"`
and all-`"yes"` criteria, the PASS banner is absent and the FAIL banner is
rendered. -/
theorem c1_witness :
    Widget.success "Final Grade: PASS" ∉
      renderResult digitalParts
        (some (Json.obj [("part1", Json.obj [("Q1", Json.obj [("value", Json.str "yes")])]),
                         ("final_grade", Json.str "fail")])) "x" ∧
    Widget.error "Final Grade: FAIL" ∈
      renderResult digitalParts
        (some (Json.obj [("part1", Json.obj [("Q1", Json.obj [("value", Json.str "yes")])]),
                         ("final_grade", Json.str "fail")])) "x" := by
  have h := c1_final_grade_rendered_verbatim digitalParts
    [("part1", Json.obj [("Q1", Json.obj [("value", Json.str "yes")])]),
     ("final_grade", Json.str "fail")] "x"
  exact ⟨(h.1 rfl).1, (h.1 rfl).2 rfl⟩

/-- Claim C2: the grade banner maps a (lowercased) `"pass"` to the success
banner, a `"fail"` to the error banner, and anything else — including the
default `""` obtained when `final_grade` is absent — to the informational
banner showing `str()` of the raw value.  `renderGrade` is a total
function, so this step never raises. -/
theorem c2_grade_banner_total (fields : List (String × Json)) :
    (pyLower (pyStr (dictGetD fields "final_grade" (Json.str ""))) = "pass" →
      renderGrade fields = Widget.success "Final Grade: PASS") ∧
    (pyLower (pyStr (dictGetD fields "final_grade" (Json.str ""))) = "fail" →
      renderGrade fields = Widget.error "Final Grade: FAIL") ∧
    (pyLower (pyStr (dictGetD fields "final_grade" (Json.str ""))) ≠ "pass" →
      pyLower (pyStr (dictGetD fields "final_grade" (Json.str ""))) ≠ "fail" →
      renderGrade fields =
        Widget.info ("Final Grade: " ++ pyStr (dictGetD fields "final_grade" (Json.str "")))) :=
  ⟨renderGrade_of_pass fields, renderGrade_of_fail fields,
   fun h1 h2 => renderGrade_of_other fields h1 h2⟩

/-- Claim C2 witness: a payload without any `final_grade` field renders the
neutral informational banner. -/
theorem c2_witness : renderGrade [] = Widget.info "Final Grade: " :=
  (c2_grade_banner_total []).2.2 (by decide) (by decide)

/-- Claim C3: when `json.loads` fails (modelled by a `none` parse outcome),
rendering degrades to the compact raw-text display — exactly the subheader,
the fallback warning, and the unparsed string — with no structured section
and no exception propagated. -/
theorem c3_invalid_json_raw_fallback (parts : List (String × String)) (raw : String) :
    renderResult parts none raw =
      [Widget.subheader "Result", fallbackWarning, Widget.write (Json.str raw)] := rfl

/-- Claim C4 counterexample: in `c4Payload` the field `"part2"` is present
and is a mapping, yet its section and badge are NOT rendered, because the
malformed criterion inside `"part1"` raises first and rendering aborts to
the compact fallback.  This refutes the claim that every present mapping
part is rendered with one badge per criterion. -/
theorem c4_counterexample :
    renderResult digitalParts (some c4Payload) "RAW" =
      [Widget.subheader "Result", Widget.sectionHeader "Part 1 — Business Model",
       fallbackWarning, Widget.write (Json.str "RAW")] ∧
    Widget.sectionHeader "Part 2 — Disruptors" ∉ renderResult digitalParts (some c4Payload) "RAW" ∧
    Widget.badge true "Q2" "ok" ∉ renderResult digitalParts (some c4Payload) "RAW" := by
  have e : renderResult digitalParts (some c4Payload) "RAW" =
      [Widget.subheader "Result", Widget.sectionHeader "Part 1 — Business Model",
       fallbackWarning, Widget.write (Json.str "RAW")] := rfl
  refine ⟨e, ?_, ?_⟩ <;> rw [e] <;> simp [fallbackWarning]

/-- Claim C4 as amended: a part key that is absent, or whose value is not a
mapping, is silently skipped (the loop just moves on); a part key whose
value is a mapping all of whose criterion values are themselves mappings is
rendered as its section header plus exactly one badge per criterion, and
the loop continues — but if some criterion value is not a mapping,
rendering aborts there (no later part is reached, cf. C10). -/
theorem c4_amended_part_guards (key title : String) (rest : List (String × String))
    (fields : List (String × Json)) :
    (dictGet? fields key = none →
      renderParts fields ((key, title) :: rest) = renderParts fields rest) ∧
    (∀ j, dictGet? fields key = some j → (∀ fs, j ≠ Json.obj fs) →
      renderParts fields ((key, title) :: rest) = renderParts fields rest) ∧
    (∀ items, dictGet? fields key = some (Json.obj items) →
      (∀ p ∈ items, ∃ fs, p.2 = Json.obj fs) →
      renderParts fields ((key, title) :: rest) =
        (Widget.sectionHeader title :: ((render_items items).1 ++ (renderParts fields rest).1),
          (renderParts fields rest).2) ∧
      (render_items items).1.length = items.length ∧
      ∀ w ∈ (render_items items).1, ∃ ok k e, w = Widget.badge ok k e) := by
  refine ⟨?_, ?_, ?_⟩
  · intro h
    simp [renderParts, h]
  · intro j h hno
    cases j with
    | obj fs => exact absurd rfl (hno fs)
    | null => simp [renderParts, h]
    | bool b => simp [renderParts, h]
    | num n => simp [renderParts, h]
    | str s => simp [renderParts, h]
    | arr es => simp [renderParts, h]
  · intro items h hall
    have hobj := render_items_of_all_obj items hall
    refine ⟨?_, hobj.2, fun w hw => render_items_badges items w hw⟩
    simp [renderParts, h, hobj.1]

/-- Claim C4 witness: concrete instances of the three amended guards — an
absent key is skipped, a non-dict part value is skipped, and a well-formed
part renders its header plus one badge. -/
theorem c4_witness :
    renderParts [("a", Json.obj [("Q", Json.obj [("value", Json.str "yes")])])] [("b", "T")] =
      renderParts [("a", Json.obj [("Q", Json.obj [("value", Json.str "yes")])])] [] ∧
    renderParts [("c", Json.str "zap")] [("c", "T")] = renderParts [("c", Json.str "zap")] [] ∧
    renderParts [("a", Json.obj [("Q", Json.obj [("value", Json.str "yes")])])] [("a", "T")] =
      (Widget.sectionHeader "T" ::
        ((render_items [("Q", Json.obj [("value", Json.str "yes")])]).1 ++
          (renderParts [("a", Json.obj [("Q", Json.obj [("value", Json.str "yes")])])] []).1),
        (renderParts [("a", Json.obj [("Q", Json.obj [("value", Json.str "yes")])])] []).2) := by
  refine ⟨(c4_amended_part_guards "b" "T" [] _).1 rfl,
    (c4_amended_part_guards "c" "T" [] [("c", Json.str "zap")]).2.1 (Json.str "zap") rfl
      (fun fs h => Json.noConfusion h),
    ((c4_amended_part_guards "a" "T" []
      [("a", Json.obj [("Q", Json.obj [("value", Json.str "yes")])])]).2.2
      [("Q", Json.obj [("value", Json.str "yes")])] rfl ?_).1⟩
  intro p hp
  simp at hp
  subst hp
  exact ⟨_, rfl⟩

/-- Claim C5: with empty or whitespace-only submission text, pressing the
trigger yields the blocking warning in every variant, whatever the
credential state, and `call_agent` is not invoked (the outcome is `warned`,
not `called`).  For the digital-disruption variant the trigger only exists
once `st.secrets` produced a key, hence its handler is quantified over a
present secret. -/
theorem c5_empty_submission_warning (sidebar key text : String)
    (env secrets : Option String) (h : (pyStrip text).isEmpty = true) :
    ecosystemRun sidebar env text =
      Outcome.warned "Please paste your submission text before evaluating." ∧
    platformRun sidebar env text =
      Outcome.warned "Please paste your submission text before evaluating." ∧
    digitalDisruptionRun (some key) text =
      Outcome.warned "Please paste your submission text before evaluating." ∧
    transformationPlanRun secrets env sidebar text =
      Outcome.warned "Please paste your submission text before evaluating." := by
  refine ⟨?_, ?_, ?_, ?_⟩ <;>
    simp [ecosystemRun, platformRun, digitalDisruptionRun, transformationPlanRun, h]

/-- Claim C5 witness: whitespace-only text with a credential present. -/
theorem c5_witness :
    ecosystemRun "sk-key" (some "sk-key") "  " =
      Outcome.warned "Please paste your submission text before evaluating." ∧
    platformRun "sk-key" (some "sk-key") "  " =
      Outcome.warned "Please paste your submission text before evaluating." ∧
    digitalDisruptionRun (some "sk-key") "  " =
      Outcome.warned "Please paste your submission text before evaluating." ∧
    transformationPlanRun (some "sk-key") (some "sk-key") "sk-key" "  " =
      Outcome.warned "Please paste your submission text before evaluating." :=
  c5_empty_submission_warning "sk-key" "sk-key" "  " (some "sk-key") (some "sk-key") (by decide)

/-- Claim C6 counterexample: in `evaluator_digital_disruption.py`, with no
session secret (and non-empty submission text), the script aborts with an
uncaught KeyError while reading `st.secrets["OPENAI_API_KEY"]` — before the
trigger logic — so no blocking warning is ever shown, refuting the claim
that every variant shows one.  (No remote call is made either way.) -/
theorem c6_counterexample :
    digitalDisruptionRun none "My ecosystem analysis" =
      Outcome.scriptError "KeyError: st.secrets has no key OPENAI_API_KEY" ∧
    digitalDisruptionRun none "My ecosystem analysis" ≠
      Outcome.warned "Please paste your submission text before evaluating." ∧
    digitalDisruptionRun none "My ecosystem analysis" ≠
      Outcome.warned "Provide an OpenAI API key in the sidebar or set OPENAI_API_KEY." :=
  ⟨rfl, by decide, by decide⟩

/-- Claim C6 as amended: with no credential from any source and non-empty
submission text, the ecosystem, platform and transformation-plan variants
show a blocking warning and never invoke the remote call, while the
digital-disruption variant aborts with an uncaught exception at its
`st.secrets` lookup before the trigger logic — also never invoking the
remote call, but showing no warning. -/
theorem c6_missing_credential_short_circuits (text : String)
    (h : (pyStrip text).isEmpty = false) :
    ecosystemRun "" none text =
      Outcome.warned "Provide an OpenAI API key in the sidebar or set OPENAI_API_KEY." ∧
    platformRun "" none text =
      Outcome.warned "Provide an OpenAI API key in the sidebar or set OPENAI_API_KEY." ∧
    transformationPlanRun none none "" text =
      Outcome.warned
        "Provide an OpenAI API key in the sidebar, set OPENAI_API_KEY secret, or set OPENAI_API_KEY environment variable." ∧
    digitalDisruptionRun none text =
      Outcome.scriptError "KeyError: st.secrets has no key OPENAI_API_KEY" := by
  refine ⟨?_, ?_, ?_, rfl⟩ <;>
    simp [ecosystemRun, platformRun, transformationPlanRun, h, optFalsy] <;> decide

/-- Claim C6 witness: concrete non-empty submission text, no credential. -/
theorem c6_witness :
    ecosystemRun "" none "hello" =
      Outcome.warned "Provide an OpenAI API key in the sidebar or set OPENAI_API_KEY." ∧
    platformRun "" none "hello" =
      Outcome.warned "Provide an OpenAI API key in the sidebar or set OPENAI_API_KEY." ∧
    transformationPlanRun none none "" "hello" =
      Outcome.warned
        "Provide an OpenAI API key in the sidebar, set OPENAI_API_KEY secret, or set OPENAI_API_KEY environment variable." ∧
    digitalDisruptionRun none "hello" =
      Outcome.scriptError "KeyError: st.secrets has no key OPENAI_API_KEY" :=
  c6_missing_credential_short_circuits "hello" (by decide)

/-- Claim C8: the overall comments section is rendered (heading plus the
string, verbatim) exactly when the `overall_comments` string is present and
non-empty; an absent field defaults to `""` and is likewise omitted.  The
second conjunct is the spec's example scenario: the example payload renders
one green badge for Part 1, the FAIL banner, and no comments section. -/
theorem c8_overall_comments (fields : List (String × Json)) (s : String) (raw : String) :
    (dictGetD fields "overall_comments" (Json.str "") = Json.str s →
      renderComments fields =
        if s.isEmpty then []
        else [Widget.markdown "### Overall Comments", Widget.write (Json.str s)]) ∧
    renderResult digitalParts (some examplePayload) raw =
      [Widget.subheader "Result", Widget.sectionHeader "Part 1 — Business Model",
       Widget.badge true "Q1" "ok", Widget.error "Final Grade: FAIL"] := by
  constructor
  · intro h
    unfold renderComments
    rw [h]
    by_cases hs : s.isEmpty <;> simp [pyTruthy, hs]
  · rfl

/-- Claim C8 witness: a non-empty comment is rendered verbatim and an empty
one is omitted. -/
theorem c8_witness :
    renderComments [("overall_comments", Json.str "Nice work")] =
      [Widget.markdown "### Overall Comments", Widget.write (Json.str "Nice work")] ∧
    renderComments [("overall_comments", Json.str "")] = [] :=
  ⟨(c8_overall_comments [("overall_comments", Json.str "Nice work")] "Nice work" "x").1 rfl,
   (c8_overall_comments [("overall_comments", Json.str "")] "" "x").1 rfl⟩

/-- Claim C9: a rendered criterion badge is green exactly when
`str(value).lower()` equals `"yes"` (case-insensitive match, any non-yes
value red); a missing `value` key defaults to `"no"`, hence a red badge;
and `render_items` emits exactly this badge for each dict-valued
criterion. -/
theorem c9_badge_iff_yes (key : String) (fs : List (String × Json)) :
    ((∃ e, criterionWidget key fs = Widget.badge true key e) ↔
      pyLower (pyStr (dictGetD fs "value" (Json.str "no"))) = "yes") ∧
    (dictGet? fs "value" = none →
      criterionWidget key fs =
        Widget.badge false key (pyStr (dictGetD fs "explanation" (Json.str "")))) ∧
    (∀ rest, render_items ((key, Json.obj fs) :: rest) =
      (criterionWidget key fs :: (render_items rest).1, (render_items rest).2)) := by
  refine ⟨⟨?_, ?_⟩, ?_, fun rest => rfl⟩
  · rintro ⟨e, he⟩
    simp [criterionWidget] at he
    exact he.1
  · intro h
    exact ⟨pyStr (dictGetD fs "explanation" (Json.str "")), by simp [criterionWidget, h]⟩
  · intro h
    unfold criterionWidget dictGetD
    rw [h]
    rfl

/-- Claim C9 witness: `"Yes"` renders green (case-insensitive), and a
criterion without a `value` key renders red. -/
theorem c9_witness :
    (∃ e, criterionWidget "Q" [("value", Json.str "Yes")] = Widget.badge true "Q" e) ∧
    criterionWidget "Q" [] = Widget.badge false "Q" "" :=
  ⟨(c9_badge_iff_yes "Q" [("value", Json.str "Yes")]).1.mpr (by decide),
   (c9_badge_iff_yes "Q" []).2.1 rfl⟩

/-- Claim C10: a criterion whose value is not a mapping makes
`render_items` abort on the spot (no further criterion is rendered and the
raised flag is set); and whenever the structured-rendering pass raises, the
report ends with the compact raw-text fallback (warning plus unparsed
string) appended after the widgets already emitted — no exception escapes,
and the malformed criterion is not merely skipped. -/
theorem c10_malformed_criterion_aborts (key : String) (val : Json)
    (rest : List (String × Json)) (parts : List (String × String))
    (fields : List (String × Json)) (raw : String) :
    ((∀ fs, val ≠ Json.obj fs) → render_items ((key, val) :: rest) = ([], true)) ∧
    ((renderParts fields parts).2 = true →
      renderResult parts (some (Json.obj fields)) raw =
        Widget.subheader "Result" ::
          ((renderParts fields parts).1 ++ [fallbackWarning, Widget.write (Json.str raw)])) := by
  constructor
  · intro h
    cases val with
    | obj fs => exact absurd rfl (h fs)
    | null => rfl
    | bool b => rfl
    | num n => rfl
    | str s => rfl
    | arr es => rfl
  · intro hr
    rw [renderResult_obj]
    simp [hr]

/-- Claim C10 witness: a bare-string criterion aborts `render_items`, and a
payload containing one produces the fallback report. -/
theorem c10_witness :
    render_items [("Q", Json.str "bare"), ("R", Json.obj [])] = ([], true) ∧
    renderResult digitalParts (some (Json.obj [("part1", Json.obj [("Q", Json.str "x")])])) "RAW" =
      Widget.subheader "Result" ::
        ((renderParts [("part1", Json.obj [("Q", Json.str "x")])] digitalParts).1 ++
          [fallbackWarning, Widget.write (Json.str "RAW")]) :=
  ⟨(c10_malformed_criterion_aborts "Q" (Json.str "bare") [("R", Json.obj [])] digitalParts
      [("part1", Json.obj [("Q", Json.str "x")])] "RAW").1 (fun _ h => Json.noConfusion h),
   (c10_malformed_criterion_aborts "Q" (Json.str "bare") [("R", Json.obj [])] digitalParts
      [("part1", Json.obj [("Q", Json.str "x")])] "RAW").2 rfl⟩

/-- Characterization of `call_agent`'s `text_out` just before its return:
a truthy (non-empty) scanned segment wins; otherwise a present
`output_text` attribute wins when truthy, else `content` is used. -/
theorem extractTextOut_eq (r : Response) :
    extractTextOut r =
      if truthyStr (scanLoop none (outputList r)) then
        (scanLoop none (outputList r)).map Json.str
      else
        match r.output_text with
        | some v => if pyTruthy v then some v else r.content
        | none => r.content := by
  unfold extractTextOut
  rcases hs : scanLoop none (outputList r) with _ | t
  · rcases ho : r.output_text with _ | v
    · simp [truthyStr, truthyVal, pyOr, ho]
    · rcases hv : pyTruthy v with _ | _ <;> simp [truthyStr, truthyVal, pyOr, ho, hv]
  · rcases hte : t.isEmpty with _ | _
    · simp [truthyStr, truthyVal, pyTruthy, hte]
    · rcases ho : r.output_text with _ | v
      · simp [truthyStr, truthyVal, pyOr, ho, hte,
          show pyTruthy (Json.str t) = !t.isEmpty from rfl]
      · rcases hv : pyTruthy v with _ | _ <;>
          simp [truthyStr, truthyVal, pyOr, ho, hv, hte,
            show pyTruthy (Json.str t) = !t.isEmpty from rfl]

/-- Claim C7 counterexample: on a response with no output segments, a
truthy non-string `output_text` attribute (the number 42) and a string
`content` attribute `"hello"`, `call_agent` serializes the raw response
instead of returning the string found in `content` — the chain does not
continue to `content` as the claim's "then its content field" requires. -/
theorem c7_counterexample :
    call_agent_extract numericResponse = jsonDumps (Json.obj []) ∧
    extract_spec numericResponse = "hello" ∧
    call_agent_extract numericResponse ≠ extract_spec numericResponse :=
  ⟨rfl, rfl, by decide⟩

/-- Claim C7 as amended: extraction follows a prioritized chain governed by
Python truthiness, not by "yields a string": (1) a non-empty scanned
`output_text` segment is returned; else (2) a non-empty string
`output_text` attribute is returned; else (3) when `output_text` is falsy
or absent, a string `content` attribute is returned; (4) a truthy
non-string `output_text` value ends the chain and the raw response is
serialized — even when `content` holds a string; (5) with nothing
available the raw response is serialized.  Extraction is total (always
returns a string). -/
theorem c7_extraction_chain (r : Response) (s : String) :
    (scanLoop none (outputList r) = some s → s ≠ "" → call_agent_extract r = s) ∧
    (truthyStr (scanLoop none (outputList r)) = false →
      r.output_text = some (Json.str s) → s ≠ "" → call_agent_extract r = s) ∧
    (truthyStr (scanLoop none (outputList r)) = false →
      truthyVal r.output_text = false →
      r.content = some (Json.str s) → call_agent_extract r = s) ∧
    (∀ v : Json, truthyStr (scanLoop none (outputList r)) = false →
      r.output_text = some v → pyTruthy v = true → (∀ t, v ≠ Json.str t) →
      call_agent_extract r = jsonDumps r.dict) ∧
    (truthyStr (scanLoop none (outputList r)) = false →
      truthyVal r.output_text = false → r.content = none →
      call_agent_extract r = jsonDumps r.dict) := by
  refine ⟨?_, ?_, ?_, ?_, ?_⟩
  · intro hscan hne
    have hb : s.isEmpty = false := by
      rcases hs : s.isEmpty with _ | _
      · rfl
      · exact absurd ((String.isEmpty_iff _).mp hs) hne
    unfold call_agent_extract
    rw [extractTextOut_eq]
    simp [hscan, truthyStr, hb]
  · intro hscan hot hne
    have hb : s.isEmpty = false := by
      rcases hs : s.isEmpty with _ | _
      · rfl
      · exact absurd ((String.isEmpty_iff _).mp hs) hne
    unfold call_agent_extract
    rw [extractTextOut_eq]
    simp [hscan, hot, show pyTruthy (Json.str s) = !s.isEmpty from rfl, hb]
  · intro hscan hot hc
    unfold call_agent_extract
    rw [extractTextOut_eq]
    rcases ho : r.output_text with _ | v
    · simp [hscan, hc]
    · have hv : pyTruthy v = false := by rw [ho] at hot; simpa [truthyVal] using hot
      simp [hscan, ho, hv, hc]
  · intro v hscan ho hv hns
    unfold call_agent_extract
    rw [extractTextOut_eq]
    simp [hscan, ho, hv]
    cases v with
    | str t => exact absurd rfl (hns t)
    | null => rfl
    | bool b => rfl
    | num n => rfl
    | arr es => rfl
    | obj fs2 => rfl
  · intro hscan hot hc
    unfold call_agent_extract
    rw [extractTextOut_eq]
    rcases ho : r.output_text with _ | v
    · simp [hscan, hc]
    · have hv : pyTruthy v = false := by rw [ho] at hot; simpa [truthyVal] using hot
      simp [hscan, ho, hv, hc]

/-- Claim C7 witness: a response with one `output_text` segment has that
segment's text extracted, and a response with no inspected attributes is
serialized. -/
theorem c7_witness :
    call_agent_extract segmentResponse = "payload" ∧
    call_agent_extract bareResponse = jsonDumps (Json.obj []) :=
  ⟨(c7_extraction_chain segmentResponse "payload").1 rfl (by decide),
   (c7_extraction_chain bareResponse "x").2.2.2.2 rfl rfl rfl⟩
